import Mathlib

/-!
Verification of the silverpy Engage API client (src/silverpy/api.py) against
its natural-language specification.

The Python module builds XML request envelopes with lxml, posts them, and
classifies XML responses.  We shallowly embed the XML trees the code builds
and reads, the response-classification logic, the per-operation request
builders and response processors, and the session-token state threading.

Conventions of the embedding:
* lxml elements become the inductive type Elem (tag, optional text, children);
  an element's text is optional because lxml yields None for an empty element.
* The fixed child-step XPath expressions used by the code become list-of-tag
  paths evaluated by xpath_nodes; a trailing text() step becomes xpath_texts
  and a trailing //text() step becomes xpath_deep_texts.
* Python exceptions become the Except monad with the PyErr error type; the
  exact exception messages of the source are kept.
* Python dynamic values that the code type-tests with isinstance are embedded
  as the PyVal sum type; parameters the code only ever treats as one type are
  given that type directly (the isinstance guard on them is then vacuous).
* An xpath result list that the code leaves as the falsy empty list where the
  spec speaks of an absent value is abstracted to Option.none, and a present
  first hit to Option.some; the latter keeps the node text, which is itself
  optional, hence Option (Option String) for the error-code slot.
-/

/-- An lxml element: tag name, optional text content, child elements.
Attributes and tails are never used by the source and are omitted. -/
inductive Elem where
  | mk (tag : String) (text : Option String) (children : List Elem)
deriving Repr

def Elem.tag : Elem → String
  | .mk t _ _ => t

def Elem.text : Elem → Option String
  | .mk _ t _ => t

def Elem.children : Elem → List Elem
  | .mk _ _ c => c

/-- Child elements of e carrying the given tag, in document order
(one child:: step of an XPath location path). -/
def children_named (e : Elem) (t : String) : List Elem :=
  e.children.filter (fun c => c.tag == t)

/-- Evaluate a pure child-step XPath location path (for example
Body/RESULT/SUCCESS) from a context element, in document order. -/
def xpath_nodes : List String → Elem → List Elem
  | [], e => [e]
  | t :: ts, e => ((children_named e t).map (xpath_nodes ts)).flatten

/-- Evaluate path/text(): the text nodes of the elements matched by the path.
An element without text contributes nothing, as in lxml. -/
def xpath_texts (p : List String) (e : Elem) : List String :=
  (xpath_nodes p e).filterMap Elem.text

mutual
/-- All text nodes in the subtree of an element, in document order
(the element's own text first). -/
def deep_texts : Elem → List String
  | .mk _ txt cs => (match txt with | some s => [s] | none => []) ++ deep_texts_list cs

def deep_texts_list : List Elem → List String
  | [] => []
  | e :: es => deep_texts e ++ deep_texts_list es
end

/-- Evaluate path//text(): every text node at or below an element matched by
the path, in document order. -/
def xpath_deep_texts (p : List String) (e : Elem) : List String :=
  (xpath_nodes p e).flatMap deep_texts

mutual
/-- etree.tostring for the documents the code builds: an element with no text
and no children is self-closing, otherwise text then children are rendered
between an open and a close tag. -/
def serialize : Elem → String
  | .mk tag txt cs =>
    match txt, cs with
    | none, [] => "<" ++ tag ++ "/>"
    | _, _ =>
      "<" ++ tag ++ ">" ++ (match txt with | some s => s | none => "")
        ++ serialize_list cs ++ "</" ++ tag ++ ">"

def serialize_list : List Elem → String
  | [] => ""
  | e :: es => serialize e ++ serialize_list es
end

/-- A dynamically typed Python value, for the parameters the source
dispatches on with isinstance. -/
inductive PyVal where
  | vInt (n : Int)
  | vStr (s : String)
  | vBool (b : Bool)
  | vNone
  | vList (xs : List PyVal)
  | vTuple (xs : List PyVal)
deriving Repr

def PyVal.isList : PyVal → Bool
  | .vList _ => true
  | _ => false

mutual
/-- Python repr() for the embedded values (strings quoted; a one-element
tuple is rendered without the trailing comma Python would add, a corner
never reached by any theorem). -/
def py_repr : PyVal → String
  | .vInt n => toString n
  | .vStr s => "\x27" ++ s ++ "\x27"
  | .vBool b => if b then "True" else "False"
  | .vNone => "None"
  | .vList xs => "[" ++ py_repr_list xs ++ "]"
  | .vTuple xs => "(" ++ py_repr_list xs ++ ")"

def py_repr_list : List PyVal → String
  | [] => ""
  | [x] => py_repr x
  | x :: xs => py_repr x ++ ", " ++ py_repr_list xs
end

/-- Python str() for the embedded values; differs from repr only on
strings, which it leaves unquoted. -/
def py_str : PyVal → String
  | .vStr s => s
  | .vInt n => toString n
  | .vBool b => if b then "True" else "False"
  | .vNone => "None"
  | .vList xs => "[" ++ py_repr_list xs ++ "]"
  | .vTuple xs => "(" ++ py_repr_list xs ++ ")"

/-- A Python dict in insertion order, as iterated by iterkeys(). -/
abbrev PyDict := List (String × PyVal)

/-- The exceptions the module raises. -/
inductive PyErr where
  | valueError (msg : String)
  | standardError (msg : String)
  | typeError (msg : String)
deriving Repr, DecidableEq

/-- The (error_code, error_message) pair _is_successful builds on failure:
the code slot is none when no errorid element matched (the Python code then
leaves the falsy empty xpath list in the tuple) and some of the matched
element's optional text otherwise; the message slot is the optional text of
the first FaultString element. -/
abbrev ErrT := Option (Option String) × Option String

def malformed_success_msg : String :=
  "Response malformed, XPath Expression Body/RESULT/SUCCESS/text()  returned nothing"

def malformed_fault_msg : String :=
  "Response malformed, XPath Expression Body/Fault/FaultString returned nothing"

/-- Python str.lower() on the ASCII text the remote API sends: lower-case
every character. -/
def py_lower (s : String) : String :=
  ⟨s.data.map Char.toLower⟩

/-- The accepted success literals: result[0].lower() compared against both
spellings the remote API uses. -/
def success_literal (t : String) : Bool :=
  py_lower t == "true" || py_lower t == "success"

/-- API._is_successful: classify a parsed response.  Reads the first
Body/RESULT/SUCCESS text (ValueError if none), accepts the two success
literals case-insensitively, and on failure builds the (code, message) pair
from Body/Fault/detail/error/errorid (optional) and Body/Fault/FaultString
(ValueError if absent). -/
def is_successful (root : Elem) : Except PyErr (Bool × Option ErrT) :=
  match (xpath_texts ["Body", "RESULT", "SUCCESS"] root).head? with
  | none => .error (.valueError malformed_success_msg)
  | some t =>
    if success_literal t then
      .ok (true, none)
    else
      let error_code := ((xpath_nodes ["Body", "Fault", "detail", "error", "errorid"] root).head?).map Elem.text
      match (xpath_nodes ["Body", "Fault", "FaultString"] root).head? with
      | none => .error (.valueError malformed_fault_msg)
      | some fs => .ok (false, some (error_code, fs.text))

/-- API._get_session_id: the text of the first Body/RESULT/SESSIONID element
(itself optional, as lxml text is), ValueError when no such element. -/
def get_session_id (root : Elem) : Except PyErr (Option String) :=
  match (xpath_nodes ["Body", "RESULT", "SESSIONID"] root).head? with
  | none => .error (.valueError "No SESSIONID in the document.")
  | some n => .ok n.text

/-- Python truthiness of the optional session-id string: None and the empty
string are falsy. -/
def py_truthy_str : Option String → Bool
  | none => false
  | some s => !(s == "")

/-- API._check_session: StandardError when the stored session id is falsy. -/
def check_session (sid : Option String) : Except PyErr Unit :=
  if py_truthy_str sid then .ok ()
  else .error (.standardError "Authentication is required, please login.")

/-- The message API._error formats before raising StandardError; the code
slot prints as the Python value it holds ([] when no errorid matched, None
for an empty errorid, the text otherwise), as %s would. -/
def error_msg (e : ErrT) : String :=
  "Error code "
    ++ (match e.1 with
        | none => "[]"
        | some none => "None"
        | some (some s) => s)
    ++ ": "
    ++ (match e.2 with
        | none => "None"
        | some s => s)

/-- API._insert_text_node: a fresh element with the given tag and text,
appended to its target by the caller (the isinstance string checks of the
source are enforced here by the types). -/
def text_node (tag : String) (text : String) : Elem :=
  .mk tag (some text) []

/-- API._envelope, with the children the caller subsequently appends to the
action node made explicit (the source builds the bare skeleton and mutates
the returned action node in place; the tree shape is identical):
Envelope / Body / action-with-children. -/
def envelope (action : String) (action_children : List Elem) : Elem :=
  .mk "Envelope" none [.mk "Body" none [.mk action none action_children]]

/-- API._create_child_element: one child per dict entry, in iteration order,
each carrying a NAME text node (the key) and a VALUE text node (str of the
value). -/
def create_child_element (tag : String) (d : PyDict) : List Elem :=
  d.map (fun kv => Elem.mk tag none [text_node "NAME" kv.1, text_node "VALUE" (py_str kv.2)])

/-- The COLUMN children appended when a columns dict is supplied: the
source guard is the Python truthiness of the dict, so None and the empty
dict both contribute nothing. -/
def columns_nodes (columns : Option PyDict) : List Elem :=
  match columns with
  | none => []
  | some d => if d.isEmpty then [] else create_child_element "COLUMN" d

/-- A boolean kwarg emitted as a literal "true" text node exactly when it is
present and identically True. -/
def opt_bool_node (tag : String) (o : Option Bool) : List Elem :=
  if o == some true then [text_node tag "true"] else []

/-- A string kwarg emitted as a text node exactly when present and truthy
(non-empty). -/
def opt_str_node (tag : String) (o : Option String) : List Elem :=
  match o with
  | some s => if s == "" then [] else [text_node tag s]
  | none => []

/-- Python truthiness of an optional integer parameter: None and 0 are
falsy. -/
def py_truthy_int : Option Int → Bool
  | none => false
  | some n => !(n == 0)

/-- str() of an optional integer parameter, as applied by the source to the
opt-out identifiers (str(None) is the string None; that branch is only
reachable when the parameter is truthy, hence present). -/
def opt_int_str : Option Int → String
  | none => "None"
  | some n => toString n

/-- The request document login posts. -/
def login_build (username password : String) : Elem :=
  envelope "Login" [text_node "USERNAME" username, text_node "PASSWORD" password]

/-- The request document logout posts. -/
def logout_build : Elem :=
  envelope "Logout" []

/-- The optional kwargs add_recipient recognises. -/
structure AddRecipKw where
  send_autoreply : Option Bool := none
  update_if_found : Option Bool := none
  allow_html : Option Bool := none
  visitor_key : Option String := none
  sync_fields : Option PyDict := none
deriving Repr

/-- The request document add_recipient posts: LIST_ID and CREATED_FROM,
the three boolean flags, VISITOR_KEY when present (no truthiness check in
the source), a SYNC_FIELDS wrapper when present, then COLUMN children. -/
def add_recipient_build (list_id created_from : Int) (columns : Option PyDict)
    (kw : AddRecipKw) : Elem :=
  envelope "AddRecipient"
    ([text_node "LIST_ID" (toString list_id),
      text_node "CREATED_FROM" (toString created_from)]
      ++ opt_bool_node "SEND_AUTOREPLY" kw.send_autoreply
      ++ opt_bool_node "UPDATE_IF_FOUND" kw.update_if_found
      ++ opt_bool_node "ALLOW_HTML" kw.allow_html
      ++ (match kw.visitor_key with
          | some s => [text_node "VISITOR_KEY" s]
          | none => [])
      ++ (match kw.sync_fields with
          | some d => [Elem.mk "SYNC_FIELDS" none (create_child_element "SYNC_FIELD" d)]
          | none => [])
      ++ columns_nodes columns)

/-- The request document remove_recipient posts. -/
def remove_recipient_build (list_id : Int) (email : String) (columns : Option PyDict) : Elem :=
  envelope "RemoveRecipient"
    ([text_node "LIST_ID" (toString list_id), text_node "EMAIL" email]
      ++ columns_nodes columns)

def opt_out_err_msg : String :=
  "If you don\x27t supply email, you need to supply mailing_id, recipient_id and job_id"

/-- The request document opt_out_recipient posts, or the ValueError the
source raises before any request: a truthy email wins, otherwise the
mailing/recipient/job identifiers must all be truthy (Python truthiness:
None and 0 fail the guard). -/
def opt_out_build (list_id : Int) (email : String) (columns : Option PyDict)
    (mailing_id recipient_id job_id : Option Int) : Except PyErr Elem :=
  let base := [text_node "LIST_ID" (toString list_id)]
  if email == "" then
    if py_truthy_int mailing_id && py_truthy_int recipient_id && py_truthy_int job_id then
      .ok (envelope "OptOutRecipient"
        (base
          ++ [text_node "MAILING_ID" (opt_int_str mailing_id),
              text_node "RECIPIENT_ID" (opt_int_str recipient_id),
              text_node "JOB_ID" (opt_int_str job_id)]
          ++ columns_nodes columns))
    else
      .error (.valueError opt_out_err_msg)
  else
    .ok (envelope "OptOutRecipient"
      (base ++ [text_node "EMAIL" email] ++ columns_nodes columns))

/-- The request document create_contact_list posts. -/
def create_contact_list_build (database_id : Int) (contact_list_name : String)
    (visibility : Int) : Elem :=
  envelope "CreateContactList"
    [text_node "DATABASE_ID" (toString database_id),
     text_node "CONTACT_LIST_NAME" contact_list_name,
     text_node "VISIBILITY" (toString visibility)]

/-- The request document add_contact_to_contact_list posts: a truthy
contact_id is emitted and then suppresses the COLUMN children. -/
def add_contact_to_contact_list_build (contact_list_id : Int) (contact_id : String)
    (columns : Option PyDict) : Elem :=
  envelope "AddContactToContactList"
    ([text_node "CONTACT_LIST_ID" (toString contact_list_id)]
      ++ (if contact_id == "" then [] else [text_node "CONTACT_ID" contact_id])
      ++ (if contact_id == "" then columns_nodes columns else []))

/-- The request document send_mailing posts. -/
def send_mailing_build (mailing_id : Int) (recipient_email : String)
    (columns : Option PyDict) : Elem :=
  envelope "SendMailing"
    ([text_node "MailingId" (toString mailing_id),
      text_node "RecipientEmail" recipient_email]
      ++ columns_nodes columns)

/-- A Python datetime value, to the precision strftime consumes here. -/
structure PyDateTime where
  year : Nat
  month : Nat
  day : Nat
  hour : Nat
  minute : Nat
  second : Nat
deriving Repr, DecidableEq

def pad2 (n : Nat) : String :=
  if n < 10 then "0" ++ toString n else toString n

/-- strftime with the source's format string %m-%d-%Y %H:%M:%S %p in the C
locale: zero-padded month, day, 24-hour hour, minute and second, and an
AM/PM marker that is AM exactly when the hour is below 12.  Note %H is the
24-hour clock even though %p is appended. -/
def strftime_sched (dt : PyDateTime) : String :=
  pad2 dt.month ++ "-" ++ pad2 dt.day ++ "-" ++ toString dt.year ++ " "
    ++ pad2 dt.hour ++ ":" ++ pad2 dt.minute ++ ":" ++ pad2 dt.second ++ " "
    ++ (if dt.hour < 12 then "AM" else "PM")

/-- The optional kwargs schedule_mailing recognises. -/
structure SchedKw where
  send_html : Option Bool := none
  send_aol : Option Bool := none
  send_text : Option Bool := none
  inbox_monitor : Option Bool := none
  create_parent_folder : Option Bool := none
  subject : Option String := none
  from_name : Option String := none
  from_address : Option String := none
  reply_to : Option String := none
  parent_folder_path : Option String := none
  send_time_optimization : Option String := none
  supression_list : Option PyVal := none
deriving Repr

/-- The SEND_TIME_OPTIMIZATION node, or the ValueError the source raises on
a value outside the three accepted literals. -/
def sched_sto_nodes (o : Option String) : Except PyErr (List Elem) :=
  match o with
  | none => .ok []
  | some sto =>
    if sto == "NONE" || sto == "SEND_24HRS" || sto == "SEND_WEEK" then
      .ok [text_node "SEND_TIME_OPTIMIZATION" sto]
    else
      .error (.valueError "send_time_optimization must be NONE, SEND_24HRS or SEND_WEEK")

/-- Whether a send_time_optimization kwarg passes the source's check. -/
def sto_valid : Option String → Bool
  | none => true
  | some sto => sto == "NONE" || sto == "SEND_24HRS" || sto == "SEND_WEEK"

/-- The SUPRESSION_LISTS wrapper (spelled as in the source), or the
TypeError the source raises when the kwarg is not a Python list: one
SUPRESSION_LIST_ID text child per element, in order. -/
def sched_sl_nodes (o : Option PyVal) : Except PyErr (List Elem) :=
  match o with
  | none => .ok []
  | some (.vList xs) =>
    .ok [Elem.mk "SUPRESSION_LISTS" none
      (xs.map (fun x => text_node "SUPRESSION_LIST_ID" (py_str x)))]
  | some _ => .error (.typeError "supression_list must be a list")

/-- The SCHEDULED node: present exactly when a scheduled datetime was
supplied (a datetime object is always truthy), carrying the strftime
rendering.  The isinstance datetime check of the source is enforced by the
type. -/
def sched_scheduled_nodes (o : Option PyDateTime) : List Elem :=
  match o with
  | none => []
  | some dt => [text_node "SCHEDULED" (strftime_sched dt)]

/-- The SUBSTITUTIONS wrapper: present when the substitutions dict is
truthy (non-empty), carrying SUBSTITUTION NAME/VALUE children.  The
isinstance dict check of the source is enforced by the type. -/
def sched_subs_nodes (o : Option PyDict) : List Elem :=
  match o with
  | none => []
  | some d =>
    if d.isEmpty then []
    else [Elem.mk "SUBSTITUTIONS" none (create_child_element "SUBSTITUTION" d)]

/-- The request document schedule_mailing posts, or the first validation
error the source raises (the send_time_optimization check precedes the
supression_list check, which precedes the scheduled and substitutions
handling). -/
def schedule_mailing_build (template_id list_id : Int) (mailing_name : String)
    (visibility : Int) (substitutions : Option PyDict) (scheduled : Option PyDateTime)
    (kw : SchedKw) : Except PyErr Elem := do
  let sto ← sched_sto_nodes kw.send_time_optimization
  let sl ← sched_sl_nodes kw.supression_list
  .ok (envelope "ScheduleMailing"
    ([text_node "TEMPLATE_ID" (toString template_id),
      text_node "LIST_ID" (toString list_id),
      text_node "MAILING_NAME" mailing_name,
      text_node "VISIBILITY" (toString visibility)]
      ++ opt_bool_node "SEND_HTML" kw.send_html
      ++ opt_bool_node "SEND_AOL" kw.send_aol
      ++ opt_bool_node "SEND_TEXT" kw.send_text
      ++ opt_bool_node "INBOX_MONITOR" kw.inbox_monitor
      ++ opt_bool_node "CREATE_PARENT_FOLDER" kw.create_parent_folder
      ++ opt_str_node "SUBJECT" kw.subject
      ++ opt_str_node "FROM_NAME" kw.from_name
      ++ opt_str_node "FROM_ADDRESS" kw.from_address
      ++ opt_str_node "REPLY_TO" kw.reply_to
      ++ opt_str_node "PARENT_FOLDER_PATH" kw.parent_folder_path
      ++ sto ++ sl
      ++ sched_scheduled_nodes scheduled
      ++ sched_subs_nodes substitutions))

/-- logout response handling: classify and return only the success flag
(the error pair is computed and discarded by the source). -/
def logout_respond (resp : Elem) : Except PyErr Bool :=
  match is_successful resp with
  | .error e => .error e
  | .ok (s, _e) => .ok s

/-- remove_recipient response handling: the classification pair is returned
to the caller unchanged. -/
def remove_recipient_respond (resp : Elem) : Except PyErr (Bool × Option ErrT) :=
  is_successful resp

/-- opt_out_recipient response handling: the classification pair is
returned to the caller unchanged. -/
def opt_out_respond (resp : Elem) : Except PyErr (Bool × Option ErrT) :=
  is_successful resp

/-- add_contact_to_contact_list response handling: the classification pair
is returned to the caller unchanged. -/
def add_contact_to_contact_list_respond (resp : Elem) : Except PyErr (Bool × Option ErrT) :=
  is_successful resp

/-- send_mailing response handling: the classification pair is returned to
the caller unchanged. -/
def send_mailing_respond (resp : Elem) : Except PyErr (Bool × Option ErrT) :=
  is_successful resp

/-- add_recipient response handling: classify, then read the first
Body/RESULT/RecipientId//text() hit whether or not the response was
successful, and return (success, recipient-id, error). -/
def add_recipient_respond (resp : Elem) :
    Except PyErr (Bool × Option String × Option ErrT) :=
  match is_successful resp with
  | .error e => .error e
  | .ok (s, err) =>
    .ok (s, (xpath_deep_texts ["Body", "RESULT", "RecipientId"] resp).head?, err)

/-- create_contact_list response handling: classify, and read the first
Body/RESULT/CONTACT_LIST_ID//text() hit only on success. -/
def create_contact_list_respond (resp : Elem) :
    Except PyErr (Bool × Option String × Option ErrT) :=
  match is_successful resp with
  | .error e => .error e
  | .ok (s, err) =>
    .ok (s,
      (if s then (xpath_deep_texts ["Body", "RESULT", "CONTACT_LIST_ID"] resp).head? else none),
      err)

/-- schedule_mailing response handling: classify, raise StandardError via
API._error whenever the classifier reports an error pair, otherwise return
(success, mailing-id) with the id read from Body/RESULT/MAILING_ID//text(). -/
def schedule_mailing_respond (resp : Elem) : Except PyErr (Bool × Option String) :=
  match is_successful resp with
  | .error e => .error e
  | .ok (s, err) =>
    match err with
    | some e => .error (.standardError (error_msg e))
    | none => .ok (s, (xpath_deep_texts ["Body", "RESULT", "MAILING_ID"] resp).head?)

/-!
Stateful operations.  Each operation is a function from the stored session
id and the (externally provided) response document to the Python result or
exception, paired with the session id the instance holds afterwards.  The
source mutates _sessionId only after every statement that can raise, so an
exception always leaves the stored id as it was.
-/

/-- API.login: request is sent unauthenticated; an error pair raises via
API._error; on success the session id is replaced by the SESSIONID text. -/
def login_op (username password : String) (sid : Option String) (resp : Elem) :
    Except PyErr Bool × Option String :=
  let _req := login_build username password
  match is_successful resp with
  | .error e => (.error e, sid)
  | .ok (s, err) =>
    match err with
    | some e => (.error (.standardError (error_msg e)), sid)
    | none =>
      if s then
        match get_session_id resp with
        | .error e => (.error e, sid)
        | .ok t => (.ok s, t)
      else (.ok s, sid)

/-- API.logout: authenticated request; on a successful response the stored
session id is cleared. -/
def logout_op (sid : Option String) (resp : Elem) :
    Except PyErr Bool × Option String :=
  let _req := logout_build
  match check_session sid with
  | .error e => (.error e, sid)
  | .ok _ =>
    match logout_respond resp with
    | .error e => (.error e, sid)
    | .ok s => (.ok s, if s then none else sid)

/-- API.add_recipient as a stateful operation. -/
def add_recipient_op (sid : Option String) (list_id created_from : Int)
    (columns : Option PyDict) (kw : AddRecipKw) (resp : Elem) :
    Except PyErr (Bool × Option String × Option ErrT) × Option String :=
  let _req := add_recipient_build list_id created_from columns kw
  match check_session sid with
  | .error e => (.error e, sid)
  | .ok _ => (add_recipient_respond resp, sid)

/-- API.remove_recipient as a stateful operation. -/
def remove_recipient_op (sid : Option String) (list_id : Int) (email : String)
    (columns : Option PyDict) (resp : Elem) :
    Except PyErr (Bool × Option ErrT) × Option String :=
  let _req := remove_recipient_build list_id email columns
  match check_session sid with
  | .error e => (.error e, sid)
  | .ok _ => (remove_recipient_respond resp, sid)

/-- API.opt_out_recipient as a stateful operation: parameter validation
happens while the request is being built, before any network activity. -/
def opt_out_op (sid : Option String) (list_id : Int) (email : String)
    (columns : Option PyDict) (mailing_id recipient_id job_id : Option Int)
    (resp : Elem) : Except PyErr (Bool × Option ErrT) × Option String :=
  match opt_out_build list_id email columns mailing_id recipient_id job_id with
  | .error e => (.error e, sid)
  | .ok _req =>
    match check_session sid with
    | .error e => (.error e, sid)
    | .ok _ => (opt_out_respond resp, sid)

/-- API.create_contact_list as a stateful operation. -/
def create_contact_list_op (sid : Option String) (database_id : Int)
    (contact_list_name : String) (visibility : Int) (resp : Elem) :
    Except PyErr (Bool × Option String × Option ErrT) × Option String :=
  let _req := create_contact_list_build database_id contact_list_name visibility
  match check_session sid with
  | .error e => (.error e, sid)
  | .ok _ => (create_contact_list_respond resp, sid)

/-- API.add_contact_to_contact_list as a stateful operation. -/
def add_contact_to_contact_list_op (sid : Option String) (contact_list_id : Int)
    (contact_id : String) (columns : Option PyDict) (resp : Elem) :
    Except PyErr (Bool × Option ErrT) × Option String :=
  let _req := add_contact_to_contact_list_build contact_list_id contact_id columns
  match check_session sid with
  | .error e => (.error e, sid)
  | .ok _ => (add_contact_to_contact_list_respond resp, sid)

/-- API.send_mailing as a stateful operation. -/
def send_mailing_op (sid : Option String) (mailing_id : Int)
    (recipient_email : String) (columns : Option PyDict) (resp : Elem) :
    Except PyErr (Bool × Option ErrT) × Option String :=
  let _req := send_mailing_build mailing_id recipient_email columns
  match check_session sid with
  | .error e => (.error e, sid)
  | .ok _ => (send_mailing_respond resp, sid)

/-- API.schedule_mailing as a stateful operation: parameter validation
happens while the request is being built, before any network activity. -/
def schedule_mailing_op (sid : Option String) (template_id list_id : Int)
    (mailing_name : String) (visibility : Int) (substitutions : Option PyDict)
    (scheduled : Option PyDateTime) (kw : SchedKw) (resp : Elem) :
    Except PyErr (Bool × Option String) × Option String :=
  match schedule_mailing_build template_id list_id mailing_name visibility
      substitutions scheduled kw with
  | .error e => (.error e, sid)
  | .ok _req =>
    match check_session sid with
    | .error e => (.error e, sid)
    | .ok _ => (schedule_mailing_respond resp, sid)

/-!
Canned response documents, mirroring the shapes in the repository's test
fixtures and the specification's worked example.
-/

def fault_msg : String :=
  "Unable to remove the recipient. The list is private and you are not the owner."

/-- The canned failure response of the spec's worked example: SUCCESS false,
errorid 140, the private-list fault string. -/
def canned_fault : Elem :=
  .mk "Envelope" none
    [.mk "Body" none
      [.mk "RESULT" none [.mk "SUCCESS" (some "false") []],
       .mk "Fault" none
         [.mk "Request" none [],
          .mk "FaultCode" none [],
          .mk "FaultString" (some fault_msg) [],
          .mk "detail" none
            [.mk "error" none
              [.mk "errorid" (some "140") []]]]]]

/-- The error pair the classifier extracts from canned_fault. -/
def canned_err : ErrT := (some (some "140"), some fault_msg)

/-- A successful response carrying no payload. -/
def canned_ok_true : Elem :=
  .mk "Envelope" none
    [.mk "Body" none
      [.mk "RESULT" none [.mk "SUCCESS" (some "TRUE") []]]]

/-- A successful login response carrying a SESSIONID. -/
def canned_login_ok : Elem :=
  .mk "Envelope" none
    [.mk "Body" none
      [.mk "RESULT" none
        [.mk "SUCCESS" (some "true") [],
         .mk "SESSIONID" (some "SESSION1") []]]]

/-- A response with no Body/RESULT/SUCCESS text at all. -/
def canned_no_success : Elem :=
  .mk "Envelope" none [.mk "Body" none [.mk "RESULT" none []]]

/-- A failure response with no Body/Fault/FaultString element. -/
def canned_no_fault : Elem :=
  .mk "Envelope" none
    [.mk "Body" none
      [.mk "RESULT" none [.mk "SUCCESS" (some "false") []]]]

/-- A successful add_recipient response carrying a RecipientId. -/
def canned_add_recipient_ok : Elem :=
  .mk "Envelope" none
    [.mk "Body" none
      [.mk "RESULT" none
        [.mk "SUCCESS" (some "TRUE") [],
         .mk "RecipientId" (some "42") []]]]

/-!
Claim theorems.
-/

/-- Claim C1: whenever the Body/RESULT/SUCCESS text node is present, the
classifier returns success = true exactly when the text, lower-cased, equals
"true" or "success"; a matching text always yields (true, none), and any
classification that returns carries success = false for every other text. -/
theorem c1_success_classification :
    ∀ (resp : Elem) (t : String),
      (xpath_texts ["Body", "RESULT", "SUCCESS"] resp).head? = some t →
      ((py_lower t = "true" ∨ py_lower t = "success") → is_successful resp = .ok (true, none))
      ∧ (∀ s e, is_successful resp = .ok (s, e) →
          (s = true ↔ (py_lower t = "true" ∨ py_lower t = "success"))) := by
  intro resp t h
  have hlit : success_literal t = true ↔ (py_lower t = "true" ∨ py_lower t = "success") := by
    simp [success_literal]
  constructor
  · intro hmatch
    simp only [is_successful, h]
    rw [if_pos (hlit.mpr hmatch)]
  · intro s e hse
    simp only [is_successful, h] at hse
    by_cases hl : success_literal t = true
    · rw [if_pos hl] at hse
      simp only [Except.ok.injEq, Prod.mk.injEq] at hse
      obtain ⟨hs, _⟩ := hse
      subst hs
      simp [hlit.mp hl]
    · rw [if_neg hl] at hse
      rcases hfs : (xpath_nodes ["Body", "Fault", "FaultString"] resp).head? with _ | fs
      · rw [hfs] at hse; cases hse
      · rw [hfs] at hse
        simp only [Except.ok.injEq, Prod.mk.injEq] at hse
        obtain ⟨hs, _⟩ := hse
        subst hs
        simp only [Bool.false_eq_true, false_iff]
        intro hc
        exact hl (hlit.mpr hc)

/-- Witness for C1: the canned successful response with SUCCESS text TRUE
satisfies the hypothesis and is classified (true, none). -/
theorem c1_witness :
    (xpath_texts ["Body", "RESULT", "SUCCESS"] canned_ok_true).head? = some "TRUE"
    ∧ is_successful canned_ok_true = .ok (true, none) :=
  ⟨rfl, (c1_success_classification canned_ok_true "TRUE" rfl).1 (Or.inl (by decide))⟩

/-- Claim C2: the classifier raises ValueError when the Body/RESULT/SUCCESS
text node is absent, and likewise when the response is classified as failure
and the Body/Fault/FaultString node is absent. -/
theorem c2_malformed_raises :
    (∀ resp : Elem, xpath_texts ["Body", "RESULT", "SUCCESS"] resp = [] →
      is_successful resp = .error (.valueError malformed_success_msg))
    ∧ (∀ (resp : Elem) (t : String),
        (xpath_texts ["Body", "RESULT", "SUCCESS"] resp).head? = some t →
        py_lower t ≠ "true" → py_lower t ≠ "success" →
        xpath_nodes ["Body", "Fault", "FaultString"] resp = [] →
        is_successful resp = .error (.valueError malformed_fault_msg)) := by
  constructor
  · intro resp h
    simp [is_successful, h]
  · intro resp t h ht1 ht2 hfs
    have hl : ¬ success_literal t = true := by
      simp [success_literal, ht1, ht2]
    simp only [is_successful, h, hfs]
    rw [if_neg hl]
    simp

/-- Witness for C2: a response lacking the SUCCESS text raises the
malformed-success ValueError, and a failure response lacking FaultString
raises the malformed-fault ValueError. -/
theorem c2_witness :
    is_successful canned_no_success = .error (.valueError malformed_success_msg)
    ∧ is_successful canned_no_fault = .error (.valueError malformed_fault_msg) :=
  ⟨c2_malformed_raises.1 canned_no_success rfl,
   c2_malformed_raises.2 canned_no_fault "false" rfl (by decide) (by decide) rfl⟩

/-- Claim C3: on a failure response carrying a FaultString, the classifier
returns (false, (code, message)) where message is the FaultString text and
code is the Body/Fault/detail/error/errorid text when that node is present
and none otherwise. -/
theorem c3_failure_error_pair :
    ∀ (resp : Elem) (t : String) (fs : Elem),
      (xpath_texts ["Body", "RESULT", "SUCCESS"] resp).head? = some t →
      py_lower t ≠ "true" → py_lower t ≠ "success" →
      (xpath_nodes ["Body", "Fault", "FaultString"] resp).head? = some fs →
      is_successful resp =
        .ok (false,
          some (((xpath_nodes ["Body", "Fault", "detail", "error", "errorid"] resp).head?).map Elem.text,
                fs.text)) := by
  intro resp t fs h ht1 ht2 hfs
  have hl : ¬ success_literal t = true := by
    simp [success_literal, ht1, ht2]
  simp only [is_successful, h, hfs]
  rw [if_neg hl]

/-- Witness for C3: the spec's worked example, SUCCESS false with errorid
140 and the private-list fault string, classifies to exactly that pair. -/
theorem c3_witness :
    is_successful canned_fault = .ok (false, some (some (some "140"), some fault_msg)) := by
  exact c3_failure_error_pair canned_fault "false" (.mk "FaultString" (some fault_msg) [])
    rfl (by decide) (by decide) rfl

/-- Claim C8: a non-raising add_recipient call returns (success, recipient
id, error) with the flag and error pair exactly as classified, and the
recipient id the first Body/RESULT/RecipientId//text() hit when one exists
and the absent marker when none does. -/
theorem c8_add_recipient_result :
    ∀ (resp : Elem) (s : Bool) (rid : Option String) (err : Option ErrT),
      add_recipient_respond resp = .ok (s, rid, err) →
      is_successful resp = .ok (s, err)
      ∧ (xpath_deep_texts ["Body", "RESULT", "RecipientId"] resp = [] → rid = none)
      ∧ (∀ t ts, xpath_deep_texts ["Body", "RESULT", "RecipientId"] resp = t :: ts → rid = some t) := by
  intro resp s rid err h
  rcases h1 : is_successful resp with e | ⟨s', err'⟩ <;>
    simp only [add_recipient_respond, h1] at h
  · cases h
  · simp only [Except.ok.injEq, Prod.mk.injEq] at h
    obtain ⟨hs, hrid, herr⟩ := h
    subst hs; subst herr
    refine ⟨rfl, ?_, ?_⟩
    · intro hnil; rw [← hrid, hnil]; rfl
    · intro t ts hcons; rw [← hrid, hcons]; rfl

/-- Witness for C8: the canned successful add_recipient response, whose
RecipientId text 42 is returned as the id. -/
theorem c8_witness :
    is_successful canned_add_recipient_ok = .ok (true, none)
    ∧ (some "42" : Option String) = some "42" :=
  ⟨(c8_add_recipient_result canned_add_recipient_ok true (some "42") none rfl).1,
   (c8_add_recipient_result canned_add_recipient_ok true (some "42") none rfl).2.2 "42" [] rfl⟩

/-- Claim C9: every envelope has root Envelope with exactly one Body child
holding exactly one child named after the action, and the envelope for
action Test serializes to exactly the expected document. -/
theorem c9_envelope_shape :
    (∀ (action : String) (cs : List Elem),
      (envelope action cs).tag = "Envelope"
      ∧ (envelope action cs).children.map Elem.tag = ["Body"]
      ∧ (envelope action cs).children.map (fun b => b.children.map Elem.tag) = [[action]])
    ∧ serialize (envelope "Test" []) = "<Envelope><Body><Test/></Body></Envelope>" := by
  exact ⟨fun action cs => ⟨rfl, rfl, rfl⟩, rfl⟩

/-- Counterexample for C4: login is not schedule_mailing, yet on the canned
failure response it raises StandardError instead of returning the failure
as data; logout, in addition, returns only the bare success flag rather
than a (success, error) pair. -/
theorem c4_counterexample :
    (login_op "u" "p" (some "S") canned_fault).1
      = .error (.standardError
          "Error code 140: Unable to remove the recipient. The list is private and you are not the owner.")
    ∧ logout_op (some "S") canned_fault = (.ok false, some "S") := by
  exact ⟨rfl, rfl⟩

/-- Claim C4 as amended: a remote-API-reported failure is returned to the
caller without raising by every operation except schedule_mailing and
login, which raise StandardError immediately; logout returns only the
success flag, the others return the error pair as data. -/
theorem c4_amended :
    ∀ (resp : Elem) (err : ErrT),
      is_successful resp = .ok (false, some err) →
      remove_recipient_respond resp = .ok (false, some err)
      ∧ opt_out_respond resp = .ok (false, some err)
      ∧ add_contact_to_contact_list_respond resp = .ok (false, some err)
      ∧ send_mailing_respond resp = .ok (false, some err)
      ∧ create_contact_list_respond resp
          = .ok (false, none, some err)
      ∧ add_recipient_respond resp
          = .ok (false, (xpath_deep_texts ["Body", "RESULT", "RecipientId"] resp).head?, some err)
      ∧ logout_respond resp = .ok false
      ∧ schedule_mailing_respond resp = .error (.standardError (error_msg err))
      ∧ (∀ (u p : String) (sid : Option String),
          (login_op u p sid resp).1 = .error (.standardError (error_msg err))) := by
  intro resp err h
  refine ⟨h, h, h, h, ?_, ?_, ?_, ?_, ?_⟩
  · simp [create_contact_list_respond, h]
  · simp [add_recipient_respond, h]
  · simp [logout_respond, h]
  · simp [schedule_mailing_respond, h]
  · intro u p sid
    simp [login_op, h]

/-- Witness for C4 as amended: the canned failure response exercises the
data-returning path of remove_recipient and the raising paths of
schedule_mailing and login. -/
theorem c4_amended_witness :
    remove_recipient_respond canned_fault = .ok (false, some canned_err)
    ∧ schedule_mailing_respond canned_fault = .error (.standardError (error_msg canned_err))
    ∧ (login_op "u" "p" (some "S") canned_fault).1 = .error (.standardError (error_msg canned_err)) := by
  have h := c4_amended canned_fault canned_err rfl
  exact ⟨h.1, h.2.2.2.2.2.2.2.1, h.2.2.2.2.2.2.2.2 "u" "p" (some "S")⟩

/-- A SchedKw with every kwarg absent. -/
def kw_none : SchedKw := {}

/-- Claim C5 evidence (code bug): at 2024-01-02 15:04:05 the SCHEDULED text
the code emits is 01-02-2024 15:04:05 PM, because the strftime format uses
the 24-hour %H together with the %p marker, whereas the 12-hour rendering
the claim specifies would be 01-02-2024 03:04:05 PM; absence of the
scheduled parameter does suppress the SCHEDULED node. -/
theorem c5_scheduled_format :
    strftime_sched ⟨2024, 1, 2, 15, 4, 5⟩ = "01-02-2024 15:04:05 PM"
    ∧ (schedule_mailing_build 10 20 "M" 1 none (some ⟨2024, 1, 2, 15, 4, 5⟩) kw_none).map
        (fun root => xpath_texts ["Body", "ScheduleMailing", "SCHEDULED"] root)
      = .ok ["01-02-2024 15:04:05 PM"]
    ∧ (schedule_mailing_build 10 20 "M" 1 none none kw_none).map
        (fun root => xpath_nodes ["Body", "ScheduleMailing", "SCHEDULED"] root)
      = .ok []
    ∧ "01-02-2024 15:04:05 PM" ≠ "01-02-2024 03:04:05 PM" :=
  ⟨rfl, rfl, rfl, by decide⟩

/-- Counterexample for C7: mailing_id = 0 together with recipient_id = 1
and job_id = 1 is a fully supplied triple, yet with an empty email the
operation raises ValueError (0 is falsy in the Python guard) and the
result does not depend on any response. -/
theorem c7_counterexample :
    opt_out_build 1 "" none (some 0) (some 1) (some 1) = .error (.valueError opt_out_err_msg)
    ∧ opt_out_op (some "S") 1 "" none (some 0) (some 1) (some 1) canned_ok_true
        = (.error (.valueError opt_out_err_msg), some "S") :=
  ⟨rfl, rfl⟩

/-- Claim C7 as amended: with an empty email, unless mailing_id,
recipient_id and job_id are all supplied with truthy (non-zero) values the
operation raises ValueError before any request, uniformly in the response;
a non-empty email, or a fully truthy triple, never raises that error. -/
theorem c7_amended :
    ∀ (list_id : Int) (email : String) (columns : Option PyDict) (m r j : Option Int),
      (email = "" →
        ¬(py_truthy_int m = true ∧ py_truthy_int r = true ∧ py_truthy_int j = true) →
        opt_out_build list_id email columns m r j = .error (.valueError opt_out_err_msg)
        ∧ (∀ (sid : Option String) (resp : Elem),
            opt_out_op sid list_id email columns m r j resp
              = (.error (.valueError opt_out_err_msg), sid)))
      ∧ (email ≠ "" → (opt_out_build list_id email columns m r j).isOk = true)
      ∧ (py_truthy_int m = true → py_truthy_int r = true → py_truthy_int j = true →
          (opt_out_build list_id email columns m r j).isOk = true) := by
  intro list_id email columns m r j
  refine ⟨?_, ?_, ?_⟩
  · intro he hno
    subst he
    have hcond : (py_truthy_int m && py_truthy_int r && py_truthy_int j) = false := by
      cases hm : py_truthy_int m <;> cases hr : py_truthy_int r <;>
        cases hj : py_truthy_int j <;> simp_all
    constructor
    · simp [opt_out_build, hcond]
    · intro sid resp
      simp [opt_out_op, opt_out_build, hcond]
  · intro he
    simp [opt_out_build, he, Except.isOk, Except.toBool]
  · intro hm hr hj
    by_cases he : email = ""
    · subst he
      simp [opt_out_build, hm, hr, hj, Except.isOk, Except.toBool]
    · simp [opt_out_build, he, Except.isOk, Except.toBool]

/-- Witness for C7 as amended: an empty email with no identifiers raises
before any request; a non-empty email, and a triple of non-zero
identifiers, both build a request. -/
theorem c7_amended_witness :
    opt_out_build 1 "" none none none none = .error (.valueError opt_out_err_msg)
    ∧ opt_out_op (some "S") 1 "" none none none none canned_ok_true
        = (.error (.valueError opt_out_err_msg), some "S")
    ∧ (opt_out_build 1 "a@b.com" none none none none).isOk = true
    ∧ (opt_out_build 1 "" none (some 5) (some 6) (some 7)).isOk = true := by
  refine ⟨((c7_amended 1 "" none none none none).1 rfl (by decide)).1,
    ((c7_amended 1 "" none none none none).1 rfl (by decide)).2 (some "S") canned_ok_true,
    (c7_amended 1 "a@b.com" none none none none).2.1 (by decide),
    (c7_amended 1 "" none (some 5) (some 6) (some 7)).2.2 (by decide) (by decide) (by decide)⟩

/-!
Helper lemmas for the schedule_mailing suppression-list claim: bind
reductions for Except, and the fact that no other segment of the action
node carries the wrapper tag.
-/

theorem except_bind_ok {ε α β : Type} (a : α) (f : α → Except ε β) :
    (Except.ok a >>= f : Except ε β) = f a := rfl

theorem except_bind_error {ε α β : Type} (e : ε) (f : α → Except ε β) :
    (Except.error e >>= f : Except ε β) = Except.error e := rfl

theorem flatten_map_singleton {α : Type} (l : List α) :
    (l.map (fun e => [e])).flatten = l := by
  induction l with
  | nil => rfl
  | cons x xs ih => simp [ih]

/-- Stepping Body / action / t into an envelope reaches exactly the
action-node children tagged t. -/
theorem xpath_into_action (action t : String) (cs : List Elem) :
    xpath_nodes ["Body", action, t] (envelope action cs)
      = cs.filter (fun c => c.tag == t) := by
  simp [envelope, xpath_nodes, children_named, Elem.children, Elem.tag,
    flatten_map_singleton]

theorem opt_bool_node_filter_ne (tag T : String) (o : Option Bool)
    (h : ¬ tag = T) :
    (opt_bool_node tag o).filter (fun c => c.tag == T) = [] := by
  unfold opt_bool_node
  split <;> simp [text_node, Elem.tag, h]

theorem opt_str_node_filter_ne (tag T : String) (o : Option String)
    (h : ¬ tag = T) :
    (opt_str_node tag o).filter (fun c => c.tag == T) = [] := by
  unfold opt_str_node
  rcases o with _ | s
  · rfl
  · split <;> simp [text_node, Elem.tag, h]

theorem sched_scheduled_filter_ne (T : String) (o : Option PyDateTime)
    (h : ¬ ("SCHEDULED" : String) = T) :
    (sched_scheduled_nodes o).filter (fun c => c.tag == T) = [] := by
  rcases o with _ | dt <;> simp [sched_scheduled_nodes, text_node, Elem.tag, h]

theorem sched_subs_filter_ne (T : String) (o : Option PyDict)
    (h : ¬ ("SUBSTITUTIONS" : String) = T) :
    (sched_subs_nodes o).filter (fun c => c.tag == T) = [] := by
  rcases o with _ | d
  · rfl
  · unfold sched_subs_nodes
    split <;> simp [Elem.tag, h]

theorem sched_sto_filter_ne (T : String) (o : Option String) (l : List Elem)
    (h : ¬ ("SEND_TIME_OPTIMIZATION" : String) = T)
    (hok : sched_sto_nodes o = .ok l) :
    l.filter (fun c => c.tag == T) = [] := by
  rcases o with _ | sto
  · cases hok
    rfl
  · by_cases hc : (sto == "NONE" || sto == "SEND_24HRS" || sto == "SEND_WEEK") = true
    · have hred : sched_sto_nodes (some sto) = .ok [text_node "SEND_TIME_OPTIMIZATION" sto] := by
        simp [sched_sto_nodes, hc]
      rw [hred] at hok
      cases hok
      simp [text_node, Elem.tag, h]
    · have hred : sched_sto_nodes (some sto)
          = .error (.valueError "send_time_optimization must be NONE, SEND_24HRS or SEND_WEEK") := by
        simp [sched_sto_nodes, hc]
      rw [hred] at hok
      cases hok

/-- A SchedKw supplying the suppression-list kwarg as a two-element list. -/
def kw_sl_example : SchedKw := { supression_list := some (.vList [.vInt 7, .vInt 8]) }

/-- A SchedKw supplying the suppression-list kwarg as a tuple, which is a
sequence but not a list. -/
def kw_sl_tuple : SchedKw := { supression_list := some (.vTuple [.vInt 7]) }

/-- The document the example schedule_mailing call builds. -/
def sl_example_root : Elem :=
  envelope "ScheduleMailing"
    [text_node "TEMPLATE_ID" "10", text_node "LIST_ID" "20",
     text_node "MAILING_NAME" "M", text_node "VISIBILITY" "1",
     Elem.mk "SUPRESSION_LISTS" none
       [text_node "SUPRESSION_LIST_ID" "7", text_node "SUPRESSION_LIST_ID" "8"]]

/-- Counterexample for C6: the built action node has no wrapper element
named SUPPRESSION_LISTS as the claim spells it; the wrapper the code emits
is the one-P SUPRESSION_LISTS, and a tuple, though a sequence, raises
TypeError. -/
theorem c6_counterexample :
    (schedule_mailing_build 10 20 "M" 1 none none kw_sl_example).map
      (fun root =>
        (xpath_nodes ["Body", "ScheduleMailing", "SUPPRESSION_LISTS"] root,
         xpath_nodes ["Body", "ScheduleMailing", "SUPRESSION_LISTS"] root))
    = .ok ([],
        [Elem.mk "SUPRESSION_LISTS" none
          [text_node "SUPRESSION_LIST_ID" "7", text_node "SUPRESSION_LIST_ID" "8"]])
    ∧ schedule_mailing_build 10 20 "M" 1 none none kw_sl_tuple
        = .error (.typeError "supression_list must be a list") :=
  ⟨rfl, rfl⟩

/-- Claim C6 as amended: a supplied suppression-list option must be a
Python list (a tuple or any other non-list value raises a TypeError before
any request, provided the earlier send_time_optimization check passes), and
each element is emitted as a SUPRESSION_LIST_ID child text node under the
single wrapper element named SUPRESSION_LISTS, as the source spells it,
inside the action node. -/
theorem c6_amended :
    ∀ (template_id list_id : Int) (mailing_name : String) (visibility : Int)
      (substitutions : Option PyDict) (scheduled : Option PyDateTime) (kw : SchedKw),
      (∀ (xs : List PyVal) (root : Elem),
        kw.supression_list = some (.vList xs) →
        schedule_mailing_build template_id list_id mailing_name visibility
            substitutions scheduled kw = .ok root →
        xpath_nodes ["Body", "ScheduleMailing", "SUPRESSION_LISTS"] root
          = [Elem.mk "SUPRESSION_LISTS" none
              (xs.map (fun x => text_node "SUPRESSION_LIST_ID" (py_str x)))])
      ∧ (∀ v : PyVal,
        kw.supression_list = some v → v.isList = false →
        sto_valid kw.send_time_optimization = true →
        schedule_mailing_build template_id list_id mailing_name visibility
            substitutions scheduled kw
          = .error (.typeError "supression_list must be a list")
        ∧ (∀ (sid : Option String) (resp : Elem),
            schedule_mailing_op sid template_id list_id mailing_name visibility
                substitutions scheduled kw resp
              = (.error (.typeError "supression_list must be a list"), sid))) := by
  intro template_id list_id mailing_name visibility substitutions scheduled kw
  constructor
  · intro xs root hsl hbuild
    rcases hsto : sched_sto_nodes kw.send_time_optimization with e | stoN
    · unfold schedule_mailing_build at hbuild
      rw [hsto, except_bind_error] at hbuild
      cases hbuild
    · unfold schedule_mailing_build at hbuild
      rw [hsto, except_bind_ok, hsl] at hbuild
      simp only [sched_sl_nodes, except_bind_ok] at hbuild
      injection hbuild with hroot
      subst hroot
      rw [xpath_into_action]
      simp only [List.filter_append]
      rw [opt_bool_node_filter_ne _ _ _ (by decide),
        opt_bool_node_filter_ne _ _ _ (by decide),
        opt_bool_node_filter_ne _ _ _ (by decide),
        opt_bool_node_filter_ne _ _ _ (by decide),
        opt_bool_node_filter_ne _ _ _ (by decide),
        opt_str_node_filter_ne _ _ _ (by decide),
        opt_str_node_filter_ne _ _ _ (by decide),
        opt_str_node_filter_ne _ _ _ (by decide),
        opt_str_node_filter_ne _ _ _ (by decide),
        opt_str_node_filter_ne _ _ _ (by decide),
        sched_sto_filter_ne _ _ _ (by decide) hsto,
        sched_scheduled_filter_ne _ _ (by decide),
        sched_subs_filter_ne _ _ (by decide)]
      simp [text_node, Elem.tag, List.filter]
  · intro v hsl hvl hstov
    have hsl2 : sched_sl_nodes kw.supression_list
        = .error (.typeError "supression_list must be a list") := by
      rw [hsl]
      cases v <;> simp_all [sched_sl_nodes, PyVal.isList]
    obtain ⟨stoN, hsto⟩ : ∃ l, sched_sto_nodes kw.send_time_optimization = .ok l := by
      rcases ho : kw.send_time_optimization with _ | sto
      · exact ⟨[], rfl⟩
      · rw [ho] at hstov
        simp only [sto_valid] at hstov
        exact ⟨[text_node "SEND_TIME_OPTIMIZATION" sto],
          by simp [sched_sto_nodes, hstov]⟩
    have hbuild : schedule_mailing_build template_id list_id mailing_name visibility
        substitutions scheduled kw
        = .error (.typeError "supression_list must be a list") := by
      unfold schedule_mailing_build
      rw [hsto, except_bind_ok, hsl2, except_bind_error]
    refine ⟨hbuild, ?_⟩
    intro sid resp
    simp [schedule_mailing_op, hbuild]

/-- Witness for C6 as amended: the example list [7, 8] yields exactly one
SUPRESSION_LISTS wrapper with the two id text nodes, and a tuple raises the
TypeError uniformly in the response. -/
theorem c6_amended_witness :
    xpath_nodes ["Body", "ScheduleMailing", "SUPRESSION_LISTS"] sl_example_root
      = [Elem.mk "SUPRESSION_LISTS" none
          [text_node "SUPRESSION_LIST_ID" "7", text_node "SUPRESSION_LIST_ID" "8"]]
    ∧ schedule_mailing_op (some "S") 10 20 "M" 1 none none kw_sl_tuple canned_ok_true
        = (.error (.typeError "supression_list must be a list"), some "S") := by
  constructor
  · exact (c6_amended 10 20 "M" 1 none none kw_sl_example).1
      [.vInt 7, .vInt 8] sl_example_root rfl rfl
  · exact ((c6_amended 10 20 "M" 1 none none kw_sl_tuple).2
      (.vTuple [.vInt 7]) rfl rfl rfl).2 (some "S") canned_ok_true

/-- A classification that returns with no error pair is a success: the
failure branch always either raises or attaches an error pair. -/
theorem is_successful_ok_none (resp : Elem) (s : Bool)
    (h : is_successful resp = .ok (s, none)) : s = true := by
  rcases ht : (xpath_texts ["Body", "RESULT", "SUCCESS"] resp).head? with _ | t <;>
    simp only [is_successful, ht] at h
  · cases h
  · by_cases hl : success_literal t = true
    · rw [if_pos hl] at h
      simp only [Except.ok.injEq, Prod.mk.injEq] at h
      exact h.1.symm
    · rw [if_neg hl] at h
      rcases hfs : (xpath_nodes ["Body", "Fault", "FaultString"] resp).head? with _ | fs <;>
        simp only [hfs] at h
      · cases h
      · simp at h

/-- Claim C10: the stored session id is mutated only by login, which on a
returning call stores the SESSIONID value extracted from the response, and
by logout, which clears it exactly on a successful response; every raising
path of login and logout, a failed logout, and every other operation leave
the stored session id unchanged. -/
theorem c10_session_frame :
    (∀ (u p : String) (sid : Option String) (resp : Elem) (e : PyErr),
      (login_op u p sid resp).1 = .error e → (login_op u p sid resp).2 = sid)
    ∧ (∀ (u p : String) (sid : Option String) (resp : Elem) (b : Bool),
      (login_op u p sid resp).1 = .ok b →
        get_session_id resp = .ok ((login_op u p sid resp).2))
    ∧ (∀ (sid : Option String) (resp : Elem) (e : PyErr),
      (logout_op sid resp).1 = .error e → (logout_op sid resp).2 = sid)
    ∧ (∀ (sid : Option String) (resp : Elem),
      (logout_op sid resp).1 = .ok true → (logout_op sid resp).2 = none)
    ∧ (∀ (sid : Option String) (resp : Elem),
      (logout_op sid resp).1 = .ok false → (logout_op sid resp).2 = sid)
    ∧ (∀ (sid : Option String) (li cf : Int) (cols : Option PyDict) (kw : AddRecipKw) (resp : Elem),
      (add_recipient_op sid li cf cols kw resp).2 = sid)
    ∧ (∀ (sid : Option String) (li : Int) (em : String) (cols : Option PyDict) (resp : Elem),
      (remove_recipient_op sid li em cols resp).2 = sid)
    ∧ (∀ (sid : Option String) (li : Int) (em : String) (cols : Option PyDict)
        (m r j : Option Int) (resp : Elem),
      (opt_out_op sid li em cols m r j resp).2 = sid)
    ∧ (∀ (sid : Option String) (db : Int) (nm : String) (vis : Int) (resp : Elem),
      (create_contact_list_op sid db nm vis resp).2 = sid)
    ∧ (∀ (sid : Option String) (cl : Int) (cid : String) (cols : Option PyDict) (resp : Elem),
      (add_contact_to_contact_list_op sid cl cid cols resp).2 = sid)
    ∧ (∀ (sid : Option String) (mi : Int) (re : String) (cols : Option PyDict) (resp : Elem),
      (send_mailing_op sid mi re cols resp).2 = sid)
    ∧ (∀ (sid : Option String) (ti li : Int) (mn : String) (vis : Int)
        (subs : Option PyDict) (schd : Option PyDateTime) (kw : SchedKw) (resp : Elem),
      (schedule_mailing_op sid ti li mn vis subs schd kw resp).2 = sid) := by
  refine ⟨?_, ?_, ?_, ?_, ?_, ?_, ?_, ?_, ?_, ?_, ?_, ?_⟩
  · intro u p sid resp e h
    rcases h1 : is_successful resp with e1 | ⟨s, err⟩
    · simp [login_op, h1]
    · rcases err with _ | er
      · cases s
        · simp [login_op, h1]
        · rcases hg : get_session_id resp with e2 | t
          · simp [login_op, h1, hg]
          · simp [login_op, h1, hg] at h
      · simp [login_op, h1]
  · intro u p sid resp b h
    rcases h1 : is_successful resp with e1 | ⟨s, err⟩
    · simp [login_op, h1] at h
    · rcases err with _ | er
      · have hs : s = true := is_successful_ok_none resp s h1
        subst hs
        rcases hg : get_session_id resp with e2 | t
        · simp [login_op, h1, hg] at h
        · simp [login_op, h1, hg]
      · simp [login_op, h1] at h
  · intro sid resp e h
    rcases hc : check_session sid with e1 | u
    · simp [logout_op, hc]
    · rcases hr : logout_respond resp with e2 | s
      · simp [logout_op, hc, hr]
      · simp [logout_op, hc, hr] at h
  · intro sid resp h
    rcases hc : check_session sid with e1 | u
    · simp [logout_op, hc] at h
    · rcases hr : logout_respond resp with e2 | s
      · simp [logout_op, hc, hr] at h
      · cases s
        · simp [logout_op, hc, hr] at h
        · simp [logout_op, hc, hr]
  · intro sid resp h
    rcases hc : check_session sid with e1 | u
    · simp [logout_op, hc] at h
    · rcases hr : logout_respond resp with e2 | s
      · simp [logout_op, hc, hr] at h
      · cases s
        · simp [logout_op, hc, hr]
        · simp [logout_op, hc, hr] at h
  · intro sid li cf cols kw resp
    rcases hc : check_session sid with e1 | u <;> simp [add_recipient_op, hc]
  · intro sid li em cols resp
    rcases hc : check_session sid with e1 | u <;> simp [remove_recipient_op, hc]
  · intro sid li em cols m r j resp
    rcases hb : opt_out_build li em cols m r j with e0 | req <;>
      rcases hc : check_session sid with e1 | u <;> simp [opt_out_op, hb, hc]
  · intro sid db nm vis resp
    rcases hc : check_session sid with e1 | u <;> simp [create_contact_list_op, hc]
  · intro sid cl cid cols resp
    rcases hc : check_session sid with e1 | u <;> simp [add_contact_to_contact_list_op, hc]
  · intro sid mi re cols resp
    rcases hc : check_session sid with e1 | u <;> simp [send_mailing_op, hc]
  · intro sid ti li mn vis subs schd kw resp
    rcases hb : schedule_mailing_build ti li mn vis subs schd kw with e0 | req <;>
      rcases hc : check_session sid with e1 | u <;> simp [schedule_mailing_op, hb, hc]

/-- Witness for C10: a raising login and a failed or unauthenticated logout
leave the session id unchanged, a successful login stores the SESSIONID
text, and a successful logout clears it. -/
theorem c10_witness :
    (login_op "u" "p" (some "S") canned_fault).2 = some "S"
    ∧ get_session_id canned_login_ok = .ok (some "SESSION1")
    ∧ (logout_op none canned_fault).2 = none
    ∧ (logout_op (some "S") canned_ok_true).2 = none
    ∧ (logout_op (some "S") canned_fault).2 = some "S" := by
  refine ⟨?_, ?_, ?_, ?_, ?_⟩
  · exact c10_session_frame.1 "u" "p" (some "S") canned_fault
      (.standardError (error_msg canned_err)) rfl
  · exact c10_session_frame.2.1 "u" "p" none canned_login_ok true rfl
  · exact c10_session_frame.2.2.1 none canned_fault
      (.standardError "Authentication is required, please login.") rfl
  · exact c10_session_frame.2.2.2.1 (some "S") canned_ok_true rfl
  · exact c10_session_frame.2.2.2.2.1 (some "S") canned_fault rfl
